import Mathlib

/-!
Verification development for the `virtual-elevation-analyzer-web` backend.

The Rust backend (src/backend/src) is shallowly embedded here.  All f64
arithmetic on finite data is modelled exactly over `ℚ` (respectively over `ℝ`
for the air-density component, whose behaviour depends on the real exponential
function).  The f64 transcendental functions used by the virtual-elevation
engine (`cos`, `sin`, `atan2`, `atan`, `sqrt`) are modelled as parameters of
the embedding (structure `Trig`): every theorem below holds for an arbitrary
interpretation of these functions, in particular for the exact real ones.
Since exact rationals have no NaN or infinity, the source's `is_nan` and
`is_finite` tests are modelled by the constant functions below; the
"non-finite replaced by 0" passes of the source are kept in the definitions
but are the identity on this finite-data model.
-/

/-- Rust `f64::is_nan`, on the exact finite-data model: constantly false. -/
def rustIsNan (_ : ℚ) : Bool := false

/-- Rust `f64::is_finite`, on the exact finite-data model: constantly true. -/
def rustIsFinite (_ : ℚ) : Bool := true

/-- Truncation toward zero, as Rust division/remainder semantics use. -/
def rustTrunc (q : ℚ) : ℤ := if q < 0 then ⌈q⌉ else ⌊q⌋

/-- Rust `%` on f64: remainder with truncation toward zero. -/
def rustRem (a b : ℚ) : ℚ := a - b * rustTrunc (a / b)

/-- Interpretation of the f64 transcendental functions used by the VE engine.
`cosdeg x` models `x.to_radians().cos()` (cosine of an angle given in
degrees), `sindeg` likewise, `atan2deg y x` models `y.atan2(x).to_degrees()`,
`atanSin s` models `s.atan().sin()`, and `sqrt` models `f64::sqrt`. -/
structure Trig where
  cosdeg : ℚ → ℚ
  sindeg : ℚ → ℚ
  atan2deg : ℚ → ℚ → ℚ
  atanSin : ℚ → ℚ
  sqrt : ℚ → ℚ

/-- Trivial interpretation of the transcendental functions, used to
instantiate theorems on concrete inputs. -/
def constTrig : Trig :=
  { cosdeg := fun _ => 1, sindeg := fun _ => 1, atan2deg := fun _ _ => 1,
    atanSin := fun _ => 1, sqrt := fun _ => 1 }

/-- Input arrays of the VE engine (struct `VEData`, virtual_elevation.rs). -/
structure VEData where
  timestamps : List ℚ
  power : List ℚ
  velocity : List ℚ
  position_lat : List ℚ
  position_long : List ℚ
  altitude : List ℚ
  distance : List ℚ
  air_speed : List ℚ
  wind_speed : List ℚ

/-- Engine parameters (struct `VEParameters`, virtual_elevation.rs). -/
structure VEParameters where
  system_mass : ℚ
  rho : ℚ
  eta : ℚ
  cda : Option ℚ
  crr : Option ℚ
  cda_min : ℚ
  cda_max : ℚ
  crr_min : ℚ
  crr_max : ℚ
  wind_speed : Option ℚ
  wind_direction : Option ℚ
  velodrome : Bool

/-- Result record (struct `VEResult`, virtual_elevation.rs). -/
structure VEResult where
  virtual_elevation : List ℚ
  virtual_slope : List ℚ
  acceleration : List ℚ
  effective_wind : List ℚ
  apparent_velocity : List ℚ
  r2 : ℚ
  rmse : ℚ
  ve_elevation_diff : ℚ
  actual_elevation_diff : ℚ
  virtual_distance_air : ℚ
  virtual_distance_ground : ℚ
  vd_difference_percent : ℚ

/-- The calculator (struct `VirtualElevationCalculator`), together with the
chosen interpretation of the transcendental functions. -/
structure VirtualElevationCalculator where
  data : VEData
  params : VEParameters
  dt : ℚ
  air_speed_calibration : ℚ
  trig : Trig

namespace VirtualElevationCalculator

/-- Constructor `VirtualElevationCalculator::new`: dt = 1 s, calibration 1. -/
def new (data : VEData) (params : VEParameters) (trig : Trig) :
    VirtualElevationCalculator :=
  { data := data, params := params, dt := 1, air_speed_calibration := 1,
    trig := trig }

/-- `calculate_acceleration` (virtual_elevation.rs lines 167-185): the vector
is initialised to zeros, entries `1 ≤ i` with `v[i] > 0` are set to
`(v[i]^2 - v[i-1]^2) / (2 v[i] dt)`, and a final pass replaces non-finite
entries by 0 (the identity here). -/
def calculate_acceleration (c : VirtualElevationCalculator) : List ℚ :=
  let v := c.data.velocity
  let acceleration := (List.range v.length).map (fun i =>
    if 1 ≤ i ∧ 0 < v.getD i 0 then
      (v.getD i 0 ^ 2 - v.getD (i - 1) 0 ^ 2) / (2 * v.getD i 0 * c.dt)
    else 0)
  acceleration.map (fun a => if rustIsFinite a then a else 0)

/-- `calculate_bearing` (virtual_elevation.rs lines 188-199).  The source
converts degrees to radians before `sin`/`cos` and the `atan2` result back to
degrees; those compositions are the `Trig` fields used here. -/
def calculate_bearing (T : Trig) (lat1 lon1 lat2 lon2 : ℚ) : ℚ :=
  let y := T.sindeg (lon2 - lon1) * T.cosdeg lat2
  let x := T.cosdeg lat1 * T.sindeg lat2 -
    T.sindeg lat1 * T.cosdeg lat2 * T.cosdeg (lon2 - lon1)
  let bearing := T.atan2deg y x
  rustRem (bearing + 360) 360

/-- One step of the in-place 3-point moving average of
`calculate_rider_directions`: the value at `i` is replaced using the already
updated value at `i - 1`. -/
def smoothStep (l : List ℚ) (i : ℕ) : List ℚ :=
  l.set i ((l.getD (i - 1) 0 + l.getD i 0 + l.getD (i + 1) 0) / 3)

/-- The sequential in-place smoothing loop `for i in 1..(n-1)`. -/
def smoothPass (n : ℕ) (l : List ℚ) : List ℚ :=
  (List.range' 1 (n - 2)).foldl smoothStep l

/-- `calculate_rider_directions` (virtual_elevation.rs lines 202-244).  The
source updates `x_comp` and `y_comp` in the same loop; as the two vectors are
independent this equals the two sequential passes below. -/
def calculate_rider_directions (c : VirtualElevationCalculator) : List ℚ :=
  let lat := c.data.position_lat
  let lon := c.data.position_long
  let n := lat.length
  if n < 2 then List.replicate n 0
  else
    let directions := (List.range n).map (fun i =>
      if i + 1 < n ∧ rustIsNan (lat.getD i 0) = false ∧
          rustIsNan (lon.getD i 0) = false ∧
          rustIsNan (lat.getD (i + 1) 0) = false ∧
          rustIsNan (lon.getD (i + 1) 0) = false then
        calculate_bearing c.trig (lat.getD i 0) (lon.getD i 0)
          (lat.getD (i + 1) 0) (lon.getD (i + 1) 0)
      else 0)
    let directions := directions.set (n - 1) (directions.getD (n - 2) 0)
    let x_comp := directions.map (fun d => c.trig.cosdeg d)
    let y_comp := directions.map (fun d => c.trig.sindeg d)
    let window_size := min 3 n
    let x_comp := if 3 ≤ window_size then smoothPass n x_comp else x_comp
    let y_comp := if 3 ≤ window_size then smoothPass n y_comp else y_comp
    (List.range n).map (fun i =>
      rustRem (c.trig.atan2deg (y_comp.getD i 0) (x_comp.getD i 0) + 360) 360)

/-- `calculate_effective_wind` (virtual_elevation.rs lines 247-295). -/
def calculate_effective_wind (c : VirtualElevationCalculator) : List ℚ :=
  let wind_speed := c.params.wind_speed.getD 0
  if wind_speed = 0 then List.replicate c.data.velocity.length 0
  else
    match c.params.wind_direction with
    | none => List.replicate c.data.velocity.length wind_speed
    | some wind_direction =>
      if c.data.position_lat.isEmpty ∨ c.data.position_long.isEmpty then
        List.replicate c.data.velocity.length wind_speed
      else
        (calculate_rider_directions c).map (fun rider_dir =>
          let angle_diff := |wind_direction - rider_dir|
          let angle_diff := if 180 < angle_diff then 360 - angle_diff else angle_diff
          wind_speed * c.trig.cosdeg angle_diff)

/-- `get_apparent_velocity` (virtual_elevation.rs lines 298-318).  The
source's `iter().zip(..).map(..)` is `List.zipWith`. -/
def get_apparent_velocity (c : VirtualElevationCalculator)
    (effective_wind : List ℚ) : List ℚ :=
  if (!c.data.air_speed.isEmpty) &&
      c.data.air_speed.any (fun x => !rustIsNan x && decide (x ≠ 0)) then
    c.data.air_speed.map (fun speed => speed * c.air_speed_calibration)
  else if (!c.data.wind_speed.isEmpty) &&
      c.data.wind_speed.any (fun x => !rustIsNan x && decide (x ≠ 0)) then
    List.zipWith (fun v w => v + (if rustIsNan w then 0 else w))
      c.data.velocity c.data.wind_speed
  else
    List.zipWith (fun v w => v + w) c.data.velocity effective_wind

/-- `calculate_virtual_distances` (virtual_elevation.rs lines 321-367).  The
source accumulates both distances in one loop; the two accumulators are
independent, giving the two folds below over the same index range. -/
def calculate_virtual_distances (c : VirtualElevationCalculator)
    (trim_start trim_end : ℕ) : ℚ × ℚ × ℚ :=
  let has_air_speed := (!c.data.air_speed.isEmpty) &&
    c.data.air_speed.any (fun x => !rustIsNan x && decide (x ≠ 0))
  if !has_air_speed then (0, 0, 0)
  else
    let start_idx := min trim_start (c.data.timestamps.length - 1)
    let end_idx := min trim_end (c.data.timestamps.length - 1)
    if end_idx ≤ start_idx then (0, 0, 0)
    else
      let step := fun (speed : ℕ → ℚ) (acc : ℚ) (i : ℕ) =>
        let dt := c.data.timestamps.getD i 0 - c.data.timestamps.getD (i - 1) 0
        if 0 < dt ∧ dt < 10 then
          (if rustIsNan (speed i) = false ∧ 0 < speed i then acc + speed i * dt
           else acc)
        else acc
      let vd_air := (List.range' (start_idx + 1) (end_idx - start_idx)).foldl
        (step (fun i => c.data.air_speed.getD i 0 * c.air_speed_calibration)) 0
      let vd_ground := (List.range' (start_idx + 1) (end_idx - start_idx)).foldl
        (step (fun i => c.data.velocity.getD i 0)) 0
      let vd_diff_percent :=
        if 0 < vd_ground then ((vd_air - vd_ground) / vd_ground) * 100 else 0
      (vd_air, vd_ground, vd_diff_percent)

/-- `calculate_virtual_slope` (virtual_elevation.rs lines 370-393). -/
def calculate_virtual_slope (c : VirtualElevationCalculator) (cda crr : ℚ) :
    List ℚ × List ℚ × List ℚ :=
  let acceleration := calculate_acceleration c
  let effective_wind := calculate_effective_wind c
  let apparent_velocity := get_apparent_velocity c effective_wind
  let slope := (List.range c.data.velocity.length).map (fun i =>
    let v := max (c.data.velocity.getD i 0) 0.001
    let w := c.data.power.getD i 0 * c.params.eta
    let a := acceleration.getD i 0
    let va := apparent_velocity.getD i 0
    let virtual_slope := w / (v * c.params.system_mass * 9.807) -
      cda * c.params.rho * va ^ 2 / (2 * c.params.system_mass * 9.807) -
      crr - a / 9.807
    if rustIsFinite virtual_slope then virtual_slope else 0)
  (slope, effective_wind, apparent_velocity)

/-- Running cumulative sum starting from `s` (the `cumsum` loop of
`calculate_virtual_elevation`). -/
def cumsumFrom (s : ℚ) : List ℚ → List ℚ
  | [] => []
  | d :: rest => (s + d) :: cumsumFrom (s + d) rest

/-- Cumulative sum of a list. -/
def cumsum (l : List ℚ) : List ℚ := cumsumFrom 0 l

/-- Clamped upper trim index of `calculate_metrics`:
`trim_end.min(len.saturating_sub(1))`. -/
def safe_trim_end (len trim_end : ℕ) : ℕ := min trim_end (len - 1)

/-- Clamped lower trim index of `calculate_metrics`:
`trim_start.min(safe_trim_end)`. -/
def safe_trim_start (trim_start ste : ℕ) : ℕ := min trim_start ste

/-- `calculate_metrics` (virtual_elevation.rs lines 443-530). -/
def calculate_metrics (c : VirtualElevationCalculator)
    (virtual_elevation : List ℚ) (trim_start trim_end : ℕ) : ℚ × ℚ × ℚ × ℚ :=
  let altitude := c.data.altitude
  let all_nan := (!altitude.isEmpty) && altitude.all (fun x => rustIsNan x)
  let all_zero := (!altitude.isEmpty) && altitude.all (fun x => decide (x = 0))
  if altitude.isEmpty || all_nan || all_zero then
    let ste := safe_trim_end virtual_elevation.length trim_end
    let sts := safe_trim_start trim_start ste
    let ve_diff :=
      if sts < virtual_elevation.length ∧ ste < virtual_elevation.length then
        virtual_elevation.getD ste 0 - virtual_elevation.getD sts 0
      else 0
    (0, 0, ve_diff, 0)
  else
    let actual_elevation :=
      if c.params.velodrome then List.replicate altitude.length 0 else altitude
    let min_len := min virtual_elevation.length actual_elevation.length
    if min_len < 3 then (0, 0, 0, 0)
    else
      let ste := safe_trim_end min_len trim_end
      let sts := safe_trim_start trim_start ste
      if ste ≤ sts ∨ ste - sts < 2 then (0, 0, 0, 0)
      else
        let ve_full := virtual_elevation.take min_len
        let actual_full := actual_elevation.take min_len
        let offset := actual_full.getD sts 0 - ve_full.getD sts 0
        let ve_calibrated := ve_full.map (fun x => x + offset)
        let trim_len := ste - sts + 1
        let ve_region := (ve_calibrated.drop sts).take trim_len
        let actual_region := (actual_full.drop sts).take trim_len
        let ve_mean := ve_region.sum / (trim_len : ℚ)
        let actual_mean := actual_region.sum / (trim_len : ℚ)
        let sums := (List.range trim_len).foldl
          (fun (acc : ℚ × ℚ × ℚ × ℚ) i =>
            let ve_dev := ve_region.getD i 0 - ve_mean
            let actual_dev := actual_region.getD i 0 - actual_mean
            let diff := ve_region.getD i 0 - actual_region.getD i 0
            (acc.1 + ve_dev * actual_dev, acc.2.1 + ve_dev * ve_dev,
             acc.2.2.1 + actual_dev * actual_dev, acc.2.2.2 + diff * diff))
          (0, 0, 0, 0)
        let r2 := if 0 < sums.2.1 ∧ 0 < sums.2.2.1 then
            (sums.1 / c.trig.sqrt (sums.2.1 * sums.2.2.1)) *
              (sums.1 / c.trig.sqrt (sums.2.1 * sums.2.2.1))
          else 0
        let rmse := c.trig.sqrt (sums.2.2.2 / (trim_len : ℚ))
        let ve_diff := ve_calibrated.getD ste 0 - ve_calibrated.getD sts 0
        let actual_diff := actual_full.getD ste 0 - actual_full.getD sts 0
        (r2, rmse, ve_diff, actual_diff)

/-- `calculate_virtual_elevation` (virtual_elevation.rs lines 397-440). -/
def calculate_virtual_elevation (c : VirtualElevationCalculator) (cda crr : ℚ)
    (trim_start trim_end : ℕ) : VEResult :=
  let t := calculate_virtual_slope c cda crr
  let virtual_slope := t.1
  let effective_wind := t.2.1
  let apparent_velocity := t.2.2
  let acceleration := calculate_acceleration c
  let delta_elevation := (List.range virtual_slope.length).map (fun i =>
    c.data.velocity.getD i 0 * c.dt * c.trig.atanSin (virtual_slope.getD i 0))
  let virtual_elevation := cumsum delta_elevation
  let m := calculate_metrics c virtual_elevation trim_start trim_end
  let d := calculate_virtual_distances c trim_start trim_end
  { virtual_elevation := virtual_elevation, virtual_slope := virtual_slope,
    acceleration := acceleration, effective_wind := effective_wind,
    apparent_velocity := apparent_velocity,
    r2 := m.1, rmse := m.2.1, ve_elevation_diff := m.2.2.1,
    actual_elevation_diff := m.2.2.2,
    virtual_distance_air := d.1, virtual_distance_ground := d.2.1,
    vd_difference_percent := d.2.2 }

end VirtualElevationCalculator

/-- Affine georeferencing parameters (struct `GeoTransform`,
dem_processor.rs lines 20-34). -/
structure GeoTransform where
  origin_x : ℚ
  origin_y : ℚ
  pixel_width : ℚ
  pixel_height : ℚ
  rotation_x : ℚ
  rotation_y : ℚ

namespace GeoTransform

/-- `GeoTransform::pixel_to_geo` (dem_processor.rs lines 38-42). -/
def pixel_to_geo (g : GeoTransform) (col row : ℚ) : ℚ × ℚ :=
  (g.origin_x + col * g.pixel_width + row * g.rotation_x,
   g.origin_y + col * g.rotation_y + row * g.pixel_height)

/-- `GeoTransform::geo_to_pixel` (dem_processor.rs lines 45-55). -/
def geo_to_pixel (g : GeoTransform) (x y : ℚ) : ℚ × ℚ :=
  let det := g.pixel_width * g.pixel_height - g.rotation_x * g.rotation_y
  if |det| < 1e-10 then (0, 0)
  else
    ((g.pixel_height * (x - g.origin_x) - g.rotation_x * (y - g.origin_y)) / det,
     (g.pixel_width * (y - g.origin_y) - g.rotation_y * (x - g.origin_x)) / det)

end GeoTransform

/-- The concrete geotransform of the round-trip test case. -/
def gtExample : GeoTransform :=
  { origin_x := 0, origin_y := 100, pixel_width := 1, pixel_height := -1,
    rotation_x := 0, rotation_y := 0 }

namespace AirDensityCalculator

/-- `AirDensityCalculator::saturation_vapor_pressure` (air_density.rs lines
23-26), Tetens formula. -/
noncomputable def saturation_vapor_pressure (temp_c : ℝ) : ℝ :=
  6.1078 * Real.exp (17.27 * temp_c / (temp_c + 237.3))

/-- The density value computed by `calculate_air_density` (air_density.rs
lines 134-152) before the final range check. -/
noncomputable def air_rho (temp_c pressure_hpa dew_point_c : ℝ) : ℝ :=
  let temp_k := temp_c + 273.15
  let pv_hpa := saturation_vapor_pressure dew_point_c
  let pd_hpa := pressure_hpa - pv_hpa
  (pd_hpa * 100) / (287.0531 * temp_k) + (pv_hpa * 100) / (461.4964 * temp_k)

/-- `AirDensityCalculator::calculate_air_density` (air_density.rs lines
103-162).  The error payloads (JS strings) are dropped: `none` models any
error return.  The `is_finite` input guard is vacuous over `ℝ` and the
`!rho.is_finite()` part of the final check is likewise vacuous. -/
noncomputable def calculate_air_density (temp_c pressure_hpa dew_point_c : ℝ) :
    Option ℝ :=
  if pressure_hpa ≤ 0 ∨ 1100 < pressure_hpa then none
  else if temp_c < -100 ∨ 60 < temp_c then none
  else if temp_c < dew_point_c then none
  else
    let rho := air_rho temp_c pressure_hpa dew_point_c
    if rho < 0.5 ∨ 2 < rho then none
    else some rho

/-- The rejection condition exactly as the claim states it (dew point allowed
up to temperature + 0.1).  This is the spec-side definition compared against
`calculate_air_density`. -/
def spec_rejects (temp_c pressure_hpa dew_point_c : ℝ) : Prop :=
  pressure_hpa ≤ 0 ∨ 1100 < pressure_hpa ∨ temp_c < -100 ∨ 60 < temp_c ∨
    temp_c + 0.1 < dew_point_c ∨
    air_rho temp_c pressure_hpa dew_point_c < 0.5 ∨
    2 < air_rho temp_c pressure_hpa dew_point_c

end AirDensityCalculator

/-- Optional field values of a FIT lap message, after the per-field numeric
extraction of `extract_lap`'s field loop (fitparser_wrapper.rs lines
416-467): `none` means the field is absent from the message. -/
structure LapMessage where
  start_time : Option ℚ
  timestamp : Option ℚ
  total_elapsed_time : Option ℚ
  total_distance : Option ℚ
  avg_speed : Option ℚ
  max_speed : Option ℚ
  avg_power : Option ℚ
  max_power : Option ℚ
  start_position_lat : Option ℚ
  start_position_long : Option ℚ
  avg_heart_rate : Option ℚ
  max_heart_rate : Option ℚ
  total_calories : Option ℚ
  avg_cadence : Option ℚ
  max_cadence : Option ℚ
deriving DecidableEq

/-- Struct `FitLap` (fitparser_wrapper.rs lines 27-43). -/
structure FitLap where
  start_time : ℚ
  end_time : ℚ
  total_elapsed_time : ℚ
  total_distance : ℚ
  avg_speed : ℚ
  max_speed : ℚ
  avg_power : ℚ
  max_power : ℚ
  start_position_lat : Option ℚ
  start_position_long : Option ℚ
  avg_heart_rate : Option ℚ
  max_heart_rate : Option ℚ
  total_calories : Option ℚ
  avg_cadence : Option ℚ
  max_cadence : Option ℚ
deriving DecidableEq

/-- `FitParserWrapper::extract_lap` (fitparser_wrapper.rs lines 396-531),
from the extracted field values onward. -/
def extract_lap (m : LapMessage) : Option FitLap :=
  match m.start_time, m.total_elapsed_time with
  | some st, some elapsed =>
    let et := st + elapsed
    let pair := if st ≤ et then (st, et) else (et, st)
    some
      { start_time := pair.1, end_time := pair.2,
        total_elapsed_time := elapsed,
        total_distance := m.total_distance.getD 0,
        avg_speed := m.avg_speed.getD 0, max_speed := m.max_speed.getD 0,
        avg_power := m.avg_power.getD 0, max_power := m.max_power.getD 0,
        start_position_lat := m.start_position_lat,
        start_position_long := m.start_position_long,
        avg_heart_rate := m.avg_heart_rate, max_heart_rate := m.max_heart_rate,
        total_calories := m.total_calories, avg_cadence := m.avg_cadence,
        max_cadence := m.max_cadence }
  | _, _ =>
    match m.timestamp, m.total_elapsed_time with
    | some ts, some elapsed =>
      let st := ts - elapsed
      let et := ts
      let pair := if st ≤ et then (st, et) else (et, st)
      some
        { start_time := pair.1, end_time := pair.2,
          total_elapsed_time := elapsed,
          total_distance := m.total_distance.getD 0,
          avg_speed := m.avg_speed.getD 0, max_speed := m.max_speed.getD 0,
          avg_power := m.avg_power.getD 0, max_power := m.max_power.getD 0,
          start_position_lat := m.start_position_lat,
          start_position_long := m.start_position_long,
          avg_heart_rate := m.avg_heart_rate,
          max_heart_rate := m.max_heart_rate,
          total_calories := m.total_calories, avg_cadence := m.avg_cadence,
          max_cadence := m.max_cadence }
    | _, _ => none

/-- Struct `FitRecord` (fitparser_wrapper.rs lines 7-24): one decoded record
message; every field but the timestamp is optional. -/
structure FitRecord where
  timestamp : ℚ
  distance : Option ℚ
  position_lat : Option ℚ
  position_long : Option ℚ
  altitude : Option ℚ
  speed : Option ℚ
  power : Option ℚ
  heart_rate : Option ℚ
  cadence : Option ℚ
  grade : Option ℚ
  temperature : Option ℚ
  gps_accuracy : Option ℚ
  calories : Option ℚ
  air_speed : Option ℚ
  wind_speed : Option ℚ
  battery_soc : Option ℚ
deriving DecidableEq

/-- Struct `FitData` (fit_parser.rs lines 6-22): the thirteen per-sample
arrays. -/
structure FitData where
  timestamps : List ℚ
  power : List ℚ
  velocity : List ℚ
  position_lat : List ℚ
  position_long : List ℚ
  altitude : List ℚ
  distance : List ℚ
  air_speed : List ℚ
  wind_speed : List ℚ
  battery_soc : List ℚ
  heart_rate : List ℚ
  cadence : List ℚ
  temperature : List ℚ

/-- The vectorization loop of `parse_fit_file` (fit_parser.rs lines 296-341):
one push per record into each of the thirteen arrays, missing optional
fields stored as 0.  The upstream binary decoding (done by the external
`fitparser` crate via `FitParserWrapper::parse`) is abstracted as the list of
already-extracted records. -/
def vectorize_records (fit_records : List FitRecord) : FitData :=
  { timestamps := fit_records.map (fun r => r.timestamp),
    power := fit_records.map (fun r => r.power.getD 0),
    velocity := fit_records.map (fun r => r.speed.getD 0),
    position_lat := fit_records.map (fun r => r.position_lat.getD 0),
    position_long := fit_records.map (fun r => r.position_long.getD 0),
    altitude := fit_records.map (fun r => r.altitude.getD 0),
    distance := fit_records.map (fun r => r.distance.getD 0),
    air_speed := fit_records.map (fun r => r.air_speed.getD 0),
    wind_speed := fit_records.map (fun r => r.wind_speed.getD 0),
    battery_soc := fit_records.map (fun r => r.battery_soc.getD 0),
    heart_rate := fit_records.map (fun r => r.heart_rate.getD 0),
    cadence := fit_records.map (fun r => r.cadence.getD 0),
    temperature := fit_records.map (fun r => r.temperature.getD 0) }

/-- The `record_count` statistic of `parse_fit_file` (fit_parser.rs line 360
and struct `ParsingStatistics`): `fit_records.len()`. -/
def stats_record_count (fit_records : List FitRecord) : ℕ :=
  fit_records.length

/-- Apparent velocity exactly as claim C3 words the priority: the second
branch fires whenever the `wind_speed` array is merely non-empty.  Spec-side
definition, compared against `get_apparent_velocity`. -/
def spec_apparent_velocity (c : VirtualElevationCalculator)
    (effective_wind : List ℚ) : List ℚ :=
  if c.data.air_speed.any (fun x => !rustIsNan x && decide (x ≠ 0)) then
    c.data.air_speed.map (fun speed => speed * c.air_speed_calibration)
  else if !c.data.wind_speed.isEmpty then
    List.zipWith (fun v w => v + (if rustIsNan w then 0 else w))
      c.data.velocity c.data.wind_speed
  else
    List.zipWith (fun v w => v + w) c.data.velocity effective_wind

/-- The angular difference between wind source direction `a` and rider
heading `b`, normalized to [0, 180] degrees, as the claim about
`calculate_effective_wind` states it. -/
def spec_delta (a b : ℚ) : ℚ :=
  if 180 < a - b - 360 * ⌊(a - b) / 360⌋ then
    360 - (a - b - 360 * ⌊(a - b) / 360⌋)
  else a - b - 360 * ⌊(a - b) / 360⌋

/-- Default-style parameters (values of `VEParameters::new`). -/
def defaultParams : VEParameters :=
  { system_mass := 75, rho := 1.225, eta := 0.97, cda := none, crr := none,
    cda_min := 0.15, cda_max := 0.5, crr_min := 0.002, crr_max := 0.015,
    wind_speed := none, wind_direction := none, velodrome := false }

/-- A small concrete two-sample input used to instantiate theorems. -/
def dataW : VEData :=
  { timestamps := [0, 1], power := [100, 100], velocity := [10, 10],
    position_lat := [1, 1], position_long := [2, 2], altitude := [5, 6],
    distance := [0, 10], air_speed := [10, 10], wind_speed := [0, 0] }

/-- Concrete calculator over `dataW` with default parameters. -/
def calcW : VirtualElevationCalculator :=
  VirtualElevationCalculator.new dataW defaultParams constTrig

/-- Concrete calculator with wind speed and direction set, used to
instantiate the effective-wind theorem. -/
def calcW4 : VirtualElevationCalculator :=
  VirtualElevationCalculator.new dataW
    { defaultParams with wind_speed := some 3, wind_direction := some 90 }
    constTrig

/-- Concrete input refuting claim C3: the `wind_speed` stream is non-empty
but contains only zeroes, while the wind parameters produce a non-zero
constant effective wind. -/
def cexCalc3 : VirtualElevationCalculator :=
  VirtualElevationCalculator.new
    { timestamps := [0], power := [0], velocity := [10], position_lat := [],
      position_long := [], altitude := [], distance := [], air_speed := [],
      wind_speed := [0] }
    { defaultParams with wind_speed := some 5 }
    constTrig

/-- Lap message with a start time and a negative elapsed time, refuting the
unconditional form of claim C7. -/
def cexMsg7 : LapMessage :=
  { start_time := some 100, timestamp := none, total_elapsed_time := some (-5),
    total_distance := none, avg_speed := none, max_speed := none,
    avg_power := none, max_power := none, start_position_lat := none,
    start_position_long := none, avg_heart_rate := none,
    max_heart_rate := none, total_calories := none, avg_cadence := none,
    max_cadence := none }

/-- The lap `extract_lap` produces from `cexMsg7`. -/
def cexLap7 : FitLap :=
  { start_time := 95, end_time := 100, total_elapsed_time := -5,
    total_distance := 0, avg_speed := 0, max_speed := 0, avg_power := 0,
    max_power := 0, start_position_lat := none, start_position_long := none,
    avg_heart_rate := none, max_heart_rate := none, total_calories := none,
    avg_cadence := none, max_cadence := none }

/-- Lap message carrying only a timestamp and an elapsed time. -/
def msgW7 : LapMessage :=
  { start_time := none, timestamp := some 100, total_elapsed_time := some 40,
    total_distance := none, avg_speed := none, max_speed := none,
    avg_power := none, max_power := none, start_position_lat := none,
    start_position_long := none, avg_heart_rate := none,
    max_heart_rate := none, total_calories := none, avg_cadence := none,
    max_cadence := none }

/-- The lap `extract_lap` produces from `msgW7`. -/
def lapW7 : FitLap :=
  { start_time := 60, end_time := 100, total_elapsed_time := 40,
    total_distance := 0, avg_speed := 0, max_speed := 0, avg_power := 0,
    max_power := 0, start_position_lat := none, start_position_long := none,
    avg_heart_rate := none, max_heart_rate := none, total_calories := none,
    avg_cadence := none, max_cadence := none }

/-- A record with a timestamp and every optional field absent. -/
def recW10 : FitRecord :=
  { timestamp := 7, distance := none, position_lat := none,
    position_long := none, altitude := none, speed := none, power := none,
    heart_rate := none, cadence := none, grade := none, temperature := none,
    gps_accuracy := none, calories := none, air_speed := none,
    wind_speed := none, battery_soc := none }

open VirtualElevationCalculator

theorem getD_map_q (f : ℚ → ℚ) (l : List ℚ) (i : ℕ) (h : i < l.length) :
    (l.map f).getD i 0 = f (l.getD i 0) := by
  rw [List.getD_eq_getElem _ _ (by simpa using h), List.getD_eq_getElem _ _ h,
    List.getElem_map]

theorem getD_range_map_q (f : ℕ → ℚ) (n i : ℕ) (h : i < n) :
    ((List.range n).map f).getD i 0 = f i := by
  rw [List.getD_eq_getElem _ _ (by simpa using h), List.getElem_map,
    List.getElem_range]

theorem getD_zipWith_q (f : ℚ → ℚ → ℚ) (l1 l2 : List ℚ) (i : ℕ)
    (h1 : i < l1.length) (h2 : i < l2.length) :
    (List.zipWith f l1 l2).getD i 0 = f (l1.getD i 0) (l2.getD i 0) := by
  rw [List.getD_eq_getElem _ _ (by simp [List.length_zipWith]; omega),
    List.getD_eq_getElem _ _ h1, List.getD_eq_getElem _ _ h2,
    List.getElem_zipWith]

theorem getD_replicate_q (x : ℚ) (n i : ℕ) (h : i < n) :
    (List.replicate n x).getD i 0 = x := by
  rw [List.getD_eq_getElem _ _ (by simpa using h), List.getElem_replicate]

theorem getD_map_of_getElem (α : Type) (f : α → ℚ) (l : List α) (i : ℕ)
    (r : α) (h : l[i]? = some r) : (l.map f).getD i 0 = f r := by
  have hi : i < l.length := by
    by_contra h2
    push_neg at h2
    rw [List.getElem?_eq_none h2] at h
    cases h
  rw [List.getD_eq_getElem _ _ (by simpa using hi), List.getElem_map]
  rw [List.getElem?_eq_getElem hi] at h
  exact congrArg f (Option.some_injective _ h)

theorem length_cumsumFrom (s : ℚ) (l : List ℚ) :
    (cumsumFrom s l).length = l.length := by
  induction l generalizing s with
  | nil => rfl
  | cons d rest ih => simp [cumsumFrom, ih]

theorem length_cumsum (l : List ℚ) : (cumsum l).length = l.length :=
  length_cumsumFrom 0 l

theorem length_foldl_smoothStep (r : List ℕ) (l : List ℚ) :
    (r.foldl smoothStep l).length = l.length := by
  induction r generalizing l with
  | nil => rfl
  | cons i rest ih => simp [List.foldl_cons, ih, smoothStep, List.length_set]

theorem length_smoothPass (n : ℕ) (l : List ℚ) :
    (smoothPass n l).length = l.length :=
  length_foldl_smoothStep _ l

theorem length_rider_directions (c : VirtualElevationCalculator) :
    (calculate_rider_directions c).length = c.data.position_lat.length := by
  unfold calculate_rider_directions
  dsimp only
  split <;> simp

theorem length_acceleration (c : VirtualElevationCalculator) :
    (calculate_acceleration c).length = c.data.velocity.length := by
  simp [calculate_acceleration]

theorem length_effective_wind (c : VirtualElevationCalculator)
    (h : c.data.position_lat.length = c.data.velocity.length) :
    (calculate_effective_wind c).length = c.data.velocity.length := by
  unfold calculate_effective_wind
  dsimp only
  split
  · simp
  · split
    · simp
    · split
      · simp
      · simp [length_rider_directions, h]

theorem length_apparent_velocity (c : VirtualElevationCalculator)
    (ew : List ℚ)
    (hair : c.data.air_speed.length = c.data.velocity.length)
    (hwind : c.data.wind_speed.length = c.data.velocity.length)
    (hew : ew.length = c.data.velocity.length) :
    (get_apparent_velocity c ew).length = c.data.velocity.length := by
  unfold get_apparent_velocity
  split
  · simp [hair]
  · split
    · simp [List.length_zipWith, hwind]
    · simp [List.length_zipWith, hew]

theorem length_virtual_slope (c : VirtualElevationCalculator) (cda crr : ℚ) :
    (calculate_virtual_slope c cda crr).1.length = c.data.velocity.length := by
  simp [calculate_virtual_slope]

theorem periodic_intmul (f : ℚ → ℚ) (hper : ∀ x, f (x + 360) = f x)
    (x : ℚ) (k : ℤ) : f (x + 360 * (k : ℚ)) = f x := by
  induction k using Int.induction_on with
  | hz => simp
  | hp n ih =>
    have he : x + 360 * (((n : ℤ) + 1 : ℤ) : ℚ) = (x + 360 * ((n : ℤ) : ℚ)) + 360 := by
      push_cast
      ring
    rw [he, hper, ih]
  | hn n ih =>
    have he : x + 360 * ((-(n : ℤ) - 1 : ℤ) : ℚ) = (x + 360 * ((-(n : ℤ) : ℤ) : ℚ)) - 360 := by
      push_cast
      ring
    have h2 := hper ((x + 360 * ((-(n : ℤ) : ℤ) : ℚ)) - 360)
    rw [sub_add_cancel] at h2
    rw [he, ← h2]
    exact ih

theorem f_abs_eq (f : ℚ → ℚ) (heven : ∀ x, f (-x) = f x) (x : ℚ) :
    f |x| = f x := by
  rcases le_or_lt 0 x with h | h
  · rw [abs_of_nonneg h]
  · rw [abs_of_neg h, heven]

theorem code_fold_eq (f : ℚ → ℚ) (heven : ∀ x, f (-x) = f x)
    (hper : ∀ x, f (x + 360) = f x) (x : ℚ) :
    f (if 180 < |x| then 360 - |x| else |x|) = f x := by
  split
  · have he : (360 : ℚ) - |x| = -|x| + 360 := by ring
    rw [he, hper, heven, f_abs_eq f heven x]
  · exact f_abs_eq f heven x

theorem spec_delta_eq (f : ℚ → ℚ) (heven : ∀ x, f (-x) = f x)
    (hper : ∀ x, f (x + 360) = f x) (a b : ℚ) :
    f (spec_delta a b) = f (a - b) := by
  unfold spec_delta
  have hm : f (a - b - 360 * (⌊(a - b) / 360⌋ : ℚ)) = f (a - b) := by
    have he : a - b - 360 * (⌊(a - b) / 360⌋ : ℚ) =
        (a - b) + 360 * ((-⌊(a - b) / 360⌋ : ℤ) : ℚ) := by
      push_cast
      ring
    rw [he, periodic_intmul f hper]
  split
  · have he : (360 : ℚ) - (a - b - 360 * (⌊(a - b) / 360⌋ : ℚ)) =
        -(a - b - 360 * (⌊(a - b) / 360⌋ : ℚ)) + 360 := by ring
    rw [he, hper, heven, hm]
  · exact hm

theorem spec_delta_mem (a b : ℚ) :
    0 ≤ spec_delta a b ∧ spec_delta a b ≤ 180 := by
  unfold spec_delta
  have he : a - b - 360 * (⌊(a - b) / 360⌋ : ℚ) =
      360 * Int.fract ((a - b) / 360) := by
    rw [← Int.self_sub_floor]
    ring
  have h0 : (0 : ℚ) ≤ 360 * Int.fract ((a - b) / 360) := by
    have := Int.fract_nonneg ((a - b) / 360)
    linarith
  have h1 : 360 * Int.fract ((a - b) / 360) < 360 := by
    have := Int.fract_lt_one ((a - b) / 360)
    linarith
  rw [he]
  split <;> constructor <;> linarith

theorem acceleration_getD (c : VirtualElevationCalculator) (i : ℕ)
    (hi : i < c.data.velocity.length) :
    (calculate_acceleration c).getD i 0 =
      if 1 ≤ i ∧ 0 < c.data.velocity.getD i 0 then
        (c.data.velocity.getD i 0 ^ 2 - c.data.velocity.getD (i - 1) 0 ^ 2) /
          (2 * c.data.velocity.getD i 0 * c.dt)
      else 0 := by
  unfold calculate_acceleration
  dsimp only
  rw [getD_map_q _ _ _ (by simpa using hi), getD_range_map_q _ _ _ hi]
  simp [rustIsFinite]

/-- Claim C1: for inputs whose nine data arrays share length N, the virtual
slope at every index i is
`P[i]·η/(v[i]·m·9.807) − CdA·ρ·va[i]²/(2·m·9.807) − Crr − a[i]/9.807`,
with the recorded velocity clamped below at 0.001 (non-finite results being
replaced by 0 is vacuous on finite data). -/
theorem virtual_slope_spec (c : VirtualElevationCalculator) (cda crr : ℚ)
    (N i : ℕ)
    (hts : c.data.timestamps.length = N) (hpw : c.data.power.length = N)
    (hv : c.data.velocity.length = N) (hlat : c.data.position_lat.length = N)
    (hlon : c.data.position_long.length = N)
    (halt : c.data.altitude.length = N) (hdist : c.data.distance.length = N)
    (hair : c.data.air_speed.length = N) (hwind : c.data.wind_speed.length = N)
    (hi : i < N) :
    (calculate_virtual_slope c cda crr).1.getD i 0 =
      c.data.power.getD i 0 * c.params.eta /
        (max (c.data.velocity.getD i 0) 0.001 * c.params.system_mass * 9.807) -
      cda * c.params.rho *
        (get_apparent_velocity c (calculate_effective_wind c)).getD i 0 ^ 2 /
        (2 * c.params.system_mass * 9.807) -
      crr - (calculate_acceleration c).getD i 0 / 9.807 := by
  have hi2 : i < c.data.velocity.length := by rw [hv]; exact hi
  unfold calculate_virtual_slope
  dsimp only
  rw [getD_range_map_q _ _ _ hi2]
  simp [rustIsFinite]

theorem virtual_slope_spec_witness :
    calcW.data.timestamps.length = 2 ∧ calcW.data.power.length = 2 ∧
    calcW.data.velocity.length = 2 ∧ calcW.data.position_lat.length = 2 ∧
    calcW.data.position_long.length = 2 ∧ calcW.data.altitude.length = 2 ∧
    calcW.data.distance.length = 2 ∧ calcW.data.air_speed.length = 2 ∧
    calcW.data.wind_speed.length = 2 ∧ (0 : ℕ) < 2 ∧
    (calculate_virtual_slope calcW 0.3 0.005).1.getD 0 0 =
      calcW.data.power.getD 0 0 * calcW.params.eta /
        (max (calcW.data.velocity.getD 0 0) 0.001 *
          calcW.params.system_mass * 9.807) -
      0.3 * calcW.params.rho *
        (get_apparent_velocity calcW (calculate_effective_wind calcW)).getD 0 0
          ^ 2 / (2 * calcW.params.system_mass * 9.807) -
      0.005 - (calculate_acceleration calcW).getD 0 0 / 9.807 :=
  ⟨rfl, rfl, rfl, rfl, rfl, rfl, rfl, rfl, rfl, by norm_num,
    virtual_slope_spec calcW 0.3 0.005 2 0 rfl rfl rfl rfl rfl rfl rfl rfl rfl
      (by norm_num)⟩

/-- Claim C2: the acceleration array has `a[0] = 0` and, for `1 ≤ i` below
the length, `a[i] = (v[i]² − v[i−1]²)/(2·v[i]·dt)` with `dt = 1` when
`v[i] > 0` and `a[i] = 0` otherwise (the non-finite replacement pass is
vacuous on finite data). -/
theorem acceleration_spec (c : VirtualElevationCalculator) (hdt : c.dt = 1) :
    (calculate_acceleration c).getD 0 0 = 0 ∧
    ∀ i, 1 ≤ i → i < c.data.velocity.length →
      (calculate_acceleration c).getD i 0 =
        if 0 < c.data.velocity.getD i 0 then
          (c.data.velocity.getD i 0 ^ 2 - c.data.velocity.getD (i - 1) 0 ^ 2) /
            (2 * c.data.velocity.getD i 0 * 1)
        else 0 := by
  constructor
  · rcases Nat.eq_zero_or_pos c.data.velocity.length with h0 | hpos
    · have hl := length_acceleration c
      rw [h0, List.length_eq_zero] at hl
      rw [hl]
      rfl
    · rw [acceleration_getD c 0 hpos]
      simp
  · intro i h1 h2
    rw [acceleration_getD c i h2, hdt]
    simp [h1]

theorem acceleration_spec_witness :
    calcW.dt = 1 ∧ (calculate_acceleration calcW).getD 0 0 = 0 ∧
    ((1 : ℕ) ≤ 1 ∧ 1 < calcW.data.velocity.length) ∧
    (calculate_acceleration calcW).getD 1 0 =
      if 0 < calcW.data.velocity.getD 1 0 then
        (calcW.data.velocity.getD 1 0 ^ 2 -
          calcW.data.velocity.getD (1 - 1) 0 ^ 2) /
          (2 * calcW.data.velocity.getD 1 0 * 1)
      else 0 :=
  ⟨rfl, (acceleration_spec calcW rfl).1, ⟨le_refl 1, by decide⟩,
    (acceleration_spec calcW rfl).2 1 (le_refl 1) (by decide)⟩

theorem code_nonzero_cond (l : List ℚ) :
    ((!l.isEmpty) && l.any (fun x => !rustIsNan x && decide (x ≠ 0))) = true ↔
      ∃ x ∈ l, x ≠ 0 := by
  simp only [Bool.and_eq_true, Bool.not_eq_eq_eq_not, Bool.not_true,
    List.any_eq_true, rustIsNan, Bool.not_false, Bool.true_and,
    decide_eq_true_eq]
  constructor
  · rintro ⟨-, hx⟩
    exact hx
  · rintro ⟨x, hx, hne⟩
    refine ⟨?_, ⟨x, hx, hne⟩⟩
    cases l with
    | nil => simp at hx
    | cons y ys => rfl

/-- Claim C3 is refuted on this input: the `wind_speed` stream is non-empty
(all zeroes), so the claim's second branch demands `v + wind_speed`, but the
code requires a non-zero entry and falls through to the effective-wind
branch. -/
theorem apparent_velocity_claim_counterexample :
    get_apparent_velocity cexCalc3 (calculate_effective_wind cexCalc3) =
      [15] ∧
    spec_apparent_velocity cexCalc3 (calculate_effective_wind cexCalc3) =
      [10] ∧
    cexCalc3.data.wind_speed ≠ [] := by
  refine ⟨?_, ?_, by decide⟩
  · norm_num [get_apparent_velocity, calculate_effective_wind, cexCalc3,
      defaultParams, VirtualElevationCalculator.new, rustIsNan]
  · norm_num [spec_apparent_velocity, calculate_effective_wind, cexCalc3,
      defaultParams, VirtualElevationCalculator.new, rustIsNan]

/-- Claim C3 (amended): `get_apparent_velocity` follows the three-way
priority, where the second branch fires only when the `wind_speed` array
contains a finite non-zero entry (not merely when it is non-empty). -/
theorem apparent_velocity_amended (c : VirtualElevationCalculator)
    (ew : List ℚ) (i : ℕ)
    (hair : c.data.air_speed.length = c.data.velocity.length)
    (hwind : c.data.wind_speed.length = c.data.velocity.length)
    (hew : ew.length = c.data.velocity.length)
    (hi : i < c.data.velocity.length) :
    (get_apparent_velocity c ew).getD i 0 =
      if ∃ x ∈ c.data.air_speed, x ≠ 0 then
        c.data.air_speed.getD i 0 * c.air_speed_calibration
      else if ∃ x ∈ c.data.wind_speed, x ≠ 0 then
        c.data.velocity.getD i 0 + c.data.wind_speed.getD i 0
      else c.data.velocity.getD i 0 + ew.getD i 0 := by
  unfold get_apparent_velocity
  by_cases h1 : ∃ x ∈ c.data.air_speed, x ≠ 0
  · rw [if_pos ((code_nonzero_cond c.data.air_speed).mpr h1), if_pos h1,
      getD_map_q _ _ _ (by rw [hair]; exact hi)]
  · have hb1 : ¬ ((!c.data.air_speed.isEmpty) &&
        c.data.air_speed.any (fun x => !rustIsNan x && decide (x ≠ 0))) =
          true := by
      rw [code_nonzero_cond]
      exact h1
    rw [if_neg hb1, if_neg h1]
    by_cases h2 : ∃ x ∈ c.data.wind_speed, x ≠ 0
    · rw [if_pos ((code_nonzero_cond c.data.wind_speed).mpr h2), if_pos h2,
        getD_zipWith_q _ _ _ _ hi (by rw [hwind]; exact hi)]
      simp [rustIsNan]
    · have hb2 : ¬ ((!c.data.wind_speed.isEmpty) &&
          c.data.wind_speed.any (fun x => !rustIsNan x && decide (x ≠ 0))) =
            true := by
        rw [code_nonzero_cond]
        exact h2
      rw [if_neg hb2, if_neg h2,
        getD_zipWith_q _ _ _ _ hi (by rw [hew]; exact hi)]

theorem apparent_velocity_amended_witness :
    calcW.data.air_speed.length = calcW.data.velocity.length ∧
    calcW.data.wind_speed.length = calcW.data.velocity.length ∧
    ([(1 : ℚ), 1] : List ℚ).length = calcW.data.velocity.length ∧
    0 < calcW.data.velocity.length ∧
    (get_apparent_velocity calcW [(1 : ℚ), 1]).getD 0 0 =
      if ∃ x ∈ calcW.data.air_speed, x ≠ 0 then
        calcW.data.air_speed.getD 0 0 * calcW.air_speed_calibration
      else if ∃ x ∈ calcW.data.wind_speed, x ≠ 0 then
        calcW.data.velocity.getD 0 0 + calcW.data.wind_speed.getD 0 0
      else calcW.data.velocity.getD 0 0 + ([(1 : ℚ), 1] : List ℚ).getD 0 0 :=
  ⟨rfl, rfl, rfl, by decide,
    apparent_velocity_amended calcW [(1 : ℚ), 1] 0 rfl rfl rfl (by decide)⟩

/-- Claim C4: `calculate_effective_wind` returns zeros when no wind speed is
set; a constant pure headwind equal to the wind speed when the direction is
absent or the lat/lon data is missing; and otherwise, at every index,
`wind_speed · cos(δ)` where δ is the angular difference between the wind
source direction and the rider heading normalized to [0, 180].  Stated for
every interpretation of `cosdeg` that is even and 360-periodic (as the real
cosine of degrees is). -/
theorem effective_wind_spec (c : VirtualElevationCalculator)
    (heven : ∀ x, c.trig.cosdeg (-x) = c.trig.cosdeg x)
    (hper : ∀ x, c.trig.cosdeg (x + 360) = c.trig.cosdeg x) :
    (c.params.wind_speed = none →
      calculate_effective_wind c = List.replicate c.data.velocity.length 0) ∧
    (∀ ws, c.params.wind_speed = some ws → ws ≠ 0 →
      c.params.wind_direction = none →
      calculate_effective_wind c = List.replicate c.data.velocity.length ws) ∧
    (∀ ws wd, c.params.wind_speed = some ws → ws ≠ 0 →
      c.params.wind_direction = some wd →
      (c.data.position_lat = [] ∨ c.data.position_long = []) →
      calculate_effective_wind c = List.replicate c.data.velocity.length ws) ∧
    (∀ ws wd, c.params.wind_speed = some ws → ws ≠ 0 →
      c.params.wind_direction = some wd →
      c.data.position_lat ≠ [] → c.data.position_long ≠ [] →
      ∀ i, i < (calculate_effective_wind c).length →
        (calculate_effective_wind c).getD i 0 =
          ws * c.trig.cosdeg
            (spec_delta wd ((calculate_rider_directions c).getD i 0)) ∧
        0 ≤ spec_delta wd ((calculate_rider_directions c).getD i 0) ∧
        spec_delta wd ((calculate_rider_directions c).getD i 0) ≤ 180) := by
  refine ⟨?_, ?_, ?_, ?_⟩
  · intro h
    unfold calculate_effective_wind
    dsimp only
    rw [h]
    simp
  · intro ws hws hne hdir
    unfold calculate_effective_wind
    dsimp only
    rw [hws, hdir]
    simp [hne]
  · intro ws wd hws hne hdir hempty
    unfold calculate_effective_wind
    dsimp only
    rw [hws, hdir]
    have hemp : c.data.position_lat.isEmpty ∨ c.data.position_long.isEmpty := by
      rcases hempty with h | h <;> [left; right] <;>
        simp [List.isEmpty_iff, h]
    simp only [Option.getD_some]
    rw [if_neg hne, if_pos hemp]
  · intro ws wd hws hne hdir hlat hlon i hil
    have hbody : calculate_effective_wind c =
        (calculate_rider_directions c).map (fun rider_dir =>
          ws * c.trig.cosdeg
            (if 180 < |wd - rider_dir| then 360 - |wd - rider_dir|
             else |wd - rider_dir|)) := by
      unfold calculate_effective_wind
      dsimp only
      rw [hws, hdir]
      have hemp : ¬ (c.data.position_lat.isEmpty ∨
          c.data.position_long.isEmpty) := by
        simp [List.isEmpty_iff, hlat, hlon]
      simp only [Option.getD_some]
      rw [if_neg hne, if_neg hemp]
    rw [hbody] at hil ⊢
    rw [List.length_map] at hil
    rw [getD_map_q _ _ _ hil]
    refine ⟨?_, (spec_delta_mem wd _).1, (spec_delta_mem wd _).2⟩
    rw [code_fold_eq c.trig.cosdeg heven hper,
      spec_delta_eq c.trig.cosdeg heven hper]

theorem effective_wind_spec_witness :
    calcW4.params.wind_speed = some 3 ∧ (3 : ℚ) ≠ 0 ∧
    calcW4.params.wind_direction = some 90 ∧
    calcW4.data.position_lat ≠ [] ∧ calcW4.data.position_long ≠ [] ∧
    0 < (calculate_effective_wind calcW4).length ∧
    (calculate_effective_wind calcW4).getD 0 0 =
      3 * calcW4.trig.cosdeg
        (spec_delta 90 ((calculate_rider_directions calcW4).getD 0 0)) :=
  ⟨rfl, by norm_num, rfl, by decide, by decide,
    by rw [length_effective_wind calcW4 rfl]; decide,
    ((effective_wind_spec calcW4 (fun x => rfl) (fun x => rfl)).2.2.2 3 90 rfl
      (by norm_num) rfl (by decide) (by decide) 0
      (by rw [length_effective_wind calcW4 rfl]; decide)).1⟩

/-- Claim C5 (amended): for all (finite) real inputs,
`calculate_air_density` errors exactly when the pressure is outside
(0, 1100], the temperature is outside [-100, 60], the dew point exceeds the
temperature (the code uses a strict `dew > temp` check, not `temp + 0.1`),
or the computed density lies outside [0.5, 2.0]; otherwise it returns the
density given by the gas-law formula. -/
theorem air_density_amended (t p d : ℝ) :
    (AirDensityCalculator.calculate_air_density t p d = none ↔
      (p ≤ 0 ∨ 1100 < p ∨ t < -100 ∨ 60 < t ∨ t < d ∨
        AirDensityCalculator.air_rho t p d < 0.5 ∨
        2 < AirDensityCalculator.air_rho t p d)) ∧
    (∀ r, AirDensityCalculator.calculate_air_density t p d = some r →
      r = AirDensityCalculator.air_rho t p d) := by
  constructor
  · unfold AirDensityCalculator.calculate_air_density
    dsimp only
    split_ifs with h1 h2 h3 h4
    · exact iff_of_true rfl (by tauto)
    · exact iff_of_true rfl (by tauto)
    · exact iff_of_true rfl (by tauto)
    · exact iff_of_true rfl (by tauto)
    · refine iff_of_false (by simp) ?_
      push_neg at h1 h2 h3 h4
      push_neg
      exact ⟨h1.1, h1.2, h2.1, h2.2, h3, h4.1, h4.2⟩
  · unfold AirDensityCalculator.calculate_air_density
    dsimp only
    intro r hr
    split_ifs at hr
    all_goals cases hr
    rfl

theorem air_density_amended_witness :
    AirDensityCalculator.calculate_air_density 15 1500 10 = none :=
  (air_density_amended 15 1500 10).1.mpr (Or.inr (Or.inl (by norm_num)))

theorem air_rho_bounds_aux (x : ℝ) (hx0 : 0 < x) (hx46 : x ≤ 46) :
    0.5 ≤ ((1013.25 - x) * 100) / (287.0531 * (15 + 273.15)) +
        (x * 100) / (461.4964 * (15 + 273.15)) ∧
      ((1013.25 - x) * 100) / (287.0531 * (15 + 273.15)) +
        (x * 100) / (461.4964 * (15 + 273.15)) ≤ 2 := by
  constructor
  · have h1 : ((1013.25 - 46) * 100) / (287.0531 * (15 + 273.15)) ≤
        ((1013.25 - x) * 100) / (287.0531 * (15 + 273.15)) := by
      gcongr <;> linarith
    have h2 : (0 : ℝ) ≤ (x * 100) / (461.4964 * (15 + 273.15)) := by positivity
    have h3 : (0.5 : ℝ) ≤ ((1013.25 - 46) * 100) / (287.0531 * (15 + 273.15)) := by
      norm_num
    linarith
  · have h1 : ((1013.25 - x) * 100) / (287.0531 * (15 + 273.15)) ≤
        (1013.25 * 100) / (287.0531 * (15 + 273.15)) := by
      gcongr <;> linarith
    have h2 : (x * 100) / (461.4964 * (15 + 273.15)) ≤
        (46 * 100) / (461.4964 * (15 + 273.15)) := by gcongr
    have h3 : (1013.25 * 100) / (287.0531 * (15 + 273.15)) +
        (46 * 100) / (461.4964 * (15 + 273.15)) ≤ (2 : ℝ) := by norm_num
    linarith

/-- Claim C5 is refuted at (temp 15, pressure 1013.25, dew point 15.05): the
dew point does not exceed temperature + 0.1 and the computed density lies in
[0.5, 2.0], so the claim demands success, but the code rejects any dew point
strictly above the temperature. -/
theorem air_density_claim_counterexample :
    ¬ (AirDensityCalculator.calculate_air_density 15 1013.25 15.05 = none ↔
       AirDensityCalculator.spec_rejects 15 1013.25 15.05) := by
  intro hIff
  have hnone : AirDensityCalculator.calculate_air_density 15 1013.25 15.05 =
      none := by
    unfold AirDensityCalculator.calculate_air_density
    rw [if_neg (by norm_num), if_neg (by norm_num), if_pos (by norm_num)]
  have hE0 : (0 : ℝ) < Real.exp (17.27 * 15.05 / (15.05 + 237.3)) :=
    Real.exp_pos _
  have hE2 : Real.exp (17.27 * 15.05 / (15.05 + 237.3)) ≤ Real.exp 2 := by
    rw [Real.exp_le_exp]
    norm_num
  have hExp2 : Real.exp 2 < 7.39 := by
    have h1 := Real.exp_one_lt_d9
    have h0 := Real.exp_pos 1
    have he : Real.exp 2 = Real.exp 1 * Real.exp 1 := by
      rw [← Real.exp_add]
      norm_num
    nlinarith
  have hpv0 : 0 < AirDensityCalculator.saturation_vapor_pressure 15.05 := by
    unfold AirDensityCalculator.saturation_vapor_pressure
    positivity
  have hpv46 : AirDensityCalculator.saturation_vapor_pressure 15.05 ≤ 46 := by
    unfold AirDensityCalculator.saturation_vapor_pressure
    nlinarith
  have hrho_eq : AirDensityCalculator.air_rho 15 1013.25 15.05 =
      ((1013.25 - AirDensityCalculator.saturation_vapor_pressure 15.05) * 100) /
        (287.0531 * (15 + 273.15)) +
      (AirDensityCalculator.saturation_vapor_pressure 15.05 * 100) /
        (461.4964 * (15 + 273.15)) := rfl
  have hbounds := air_rho_bounds_aux
    (AirDensityCalculator.saturation_vapor_pressure 15.05) hpv0 hpv46
  have hrej := hIff.mp hnone
  unfold AirDensityCalculator.spec_rejects at hrej
  rw [hrho_eq] at hrej
  rcases hrej with h | h | h | h | h | h | h
  · norm_num at h
  · norm_num at h
  · norm_num at h
  · norm_num at h
  · norm_num at h
  · linarith [hbounds.1]
  · linarith [hbounds.2]

/-- Claim C6: for the geotransform (0, 100, 1, -1, 0, 0), `pixel_to_geo`
maps (10, 20) to (10, 80) and `geo_to_pixel` maps (10, 80) back to (10, 20)
(exactly, hence within 1e-6); and for every geotransform whose determinant
exceeds 1e-10 in absolute value, `geo_to_pixel` inverts `pixel_to_geo`. -/
theorem geotransform_roundtrip :
    GeoTransform.pixel_to_geo gtExample 10 20 = (10, 80) ∧
    GeoTransform.geo_to_pixel gtExample 10 80 = (10, 20) ∧
    ∀ (g : GeoTransform) (col row : ℚ),
      1e-10 < |g.pixel_width * g.pixel_height - g.rotation_x * g.rotation_y| →
      GeoTransform.geo_to_pixel g (GeoTransform.pixel_to_geo g col row).1
        (GeoTransform.pixel_to_geo g col row).2 = (col, row) := by
  refine ⟨?_, ?_, ?_⟩
  · unfold GeoTransform.pixel_to_geo
    norm_num [gtExample, Prod.ext_iff]
  · unfold GeoTransform.geo_to_pixel
    rw [if_neg (by norm_num [gtExample])]
    norm_num [gtExample, Prod.ext_iff]
  · intro g col row hdet
    have hne : g.pixel_width * g.pixel_height - g.rotation_x * g.rotation_y ≠
        0 := by
      intro h0
      rw [h0] at hdet
      norm_num at hdet
    unfold GeoTransform.geo_to_pixel GeoTransform.pixel_to_geo
    dsimp only
    rw [if_neg (not_lt.mpr (le_of_lt hdet))]
    rw [Prod.ext_iff]
    constructor
    · dsimp only
      field_simp
      ring
    · dsimp only
      field_simp
      ring

theorem geotransform_roundtrip_witness :
    1e-10 < |gtExample.pixel_width * gtExample.pixel_height -
      gtExample.rotation_x * gtExample.rotation_y| ∧
    GeoTransform.geo_to_pixel gtExample
      (GeoTransform.pixel_to_geo gtExample 3 4).1
      (GeoTransform.pixel_to_geo gtExample 3 4).2 = (3, 4) :=
  ⟨by norm_num [gtExample], geotransform_roundtrip.2.2 gtExample 3 4
    (by norm_num [gtExample])⟩

/-- Claim C7 is refuted on a lap message with `start_time = 100` and
`total_elapsed_time = -5`: the code swaps start and end to restore ordering,
after which `end_time ≠ start_time + total_elapsed_time`. -/
theorem extract_lap_claim_counterexample :
    extract_lap cexMsg7 = some cexLap7 ∧
    cexLap7.end_time ≠ cexLap7.start_time + cexLap7.total_elapsed_time := by
  constructor
  · norm_num [extract_lap, cexMsg7, cexLap7]
  · norm_num [cexLap7]

/-- Claim C7 (amended): every lap produced by `extract_lap` satisfies
`start_time ≤ end_time`; and whenever the stored `total_elapsed_time` is
non-negative, `end_time = start_time + total_elapsed_time`, and a lap built
without a `start_time` field (from `timestamp` and `total_elapsed_time`) has
`start_time = timestamp − elapsed` and `end_time = timestamp`. -/
theorem extract_lap_amended :
    (∀ m lap, extract_lap m = some lap → lap.start_time ≤ lap.end_time) ∧
    (∀ m lap, extract_lap m = some lap → 0 ≤ lap.total_elapsed_time →
      lap.end_time = lap.start_time + lap.total_elapsed_time ∧
      (m.start_time = none → ∃ ts, m.timestamp = some ts ∧
        lap.start_time = ts - lap.total_elapsed_time ∧
        lap.end_time = ts)) := by
  constructor
  · intro m lap h
    unfold extract_lap at h
    split at h
    · rename_i st el hmatch
      dsimp only at h
      split at h <;> rename_i hle <;> cases Option.some.inj h <;> dsimp only
      · exact hle
      · linarith [not_le.mp hle]
    · rename_i hcatch
      split at h
      · rename_i ts el hmatch2
        dsimp only at h
        split at h <;> rename_i hle <;> cases Option.some.inj h <;> dsimp only
        · exact hle
        · linarith [not_le.mp hle]
      · cases h
  · intro m lap h h0
    unfold extract_lap at h
    split at h
    · rename_i stv elv heq1 heq2
      dsimp only at h
      split at h <;> rename_i hle <;> cases Option.some.inj h <;>
        dsimp only at h0 ⊢
      · refine ⟨rfl, fun hn => ?_⟩
        rw [heq1] at hn
        cases hn
      · exact absurd (by linarith : stv ≤ stv + elv) hle
    · rename_i hcatch
      split at h
      · rename_i tsv elv heq1 heq2
        dsimp only at h
        split at h <;> rename_i hle <;> cases Option.some.inj h <;>
          dsimp only at h0 ⊢
        · exact ⟨by ring, fun hn => ⟨tsv, heq1, by ring, rfl⟩⟩
        · exact absurd (by linarith : tsv - elv ≤ tsv) hle
      · cases h

theorem extract_lap_amended_witness :
    extract_lap msgW7 = some lapW7 ∧ (0 : ℚ) ≤ lapW7.total_elapsed_time ∧
    lapW7.end_time = lapW7.start_time + lapW7.total_elapsed_time ∧
    msgW7.start_time = none := by
  have hx : extract_lap msgW7 = some lapW7 := by
    norm_num [extract_lap, msgW7, lapW7]
  have h0 : (0 : ℚ) ≤ lapW7.total_elapsed_time := by norm_num [lapW7]
  exact ⟨hx, h0, (extract_lap_amended.2 msgW7 lapW7 hx h0).1, rfl⟩

/-- Claim C8: when the air-speed stream equals the velocity stream (and has
a finite non-zero entry) and the calibration factor is 1, the
`vd_difference_percent` returned by `calculate_virtual_distances` is 0 for
every choice of trim indices. -/
theorem virtual_distance_identity (c : VirtualElevationCalculator)
    (heq : c.data.air_speed = c.data.velocity)
    (hcal : c.air_speed_calibration = 1)
    (hnz : ∃ x ∈ c.data.air_speed, x ≠ 0) (trim_start trim_end : ℕ) :
    (calculate_virtual_distances c trim_start trim_end).2.2 = 0 := by
  unfold calculate_virtual_distances
  dsimp only
  have hb := (code_nonzero_cond c.data.air_speed).mpr hnz
  rw [if_neg (by rw [hb]; simp)]
  split
  · rfl
  · dsimp only
    have hfold : ∀ l : List ℕ, ∀ a : ℚ,
        l.foldl (fun (acc : ℚ) (i : ℕ) =>
          let dt := c.data.timestamps.getD i 0 -
            c.data.timestamps.getD (i - 1) 0
          if 0 < dt ∧ dt < 10 then
            (if rustIsNan (c.data.air_speed.getD i 0 *
                c.air_speed_calibration) = false ∧
                0 < c.data.air_speed.getD i 0 * c.air_speed_calibration then
              acc + c.data.air_speed.getD i 0 * c.air_speed_calibration * dt
             else acc)
          else acc) a =
        l.foldl (fun (acc : ℚ) (i : ℕ) =>
          let dt := c.data.timestamps.getD i 0 -
            c.data.timestamps.getD (i - 1) 0
          if 0 < dt ∧ dt < 10 then
            (if rustIsNan (c.data.velocity.getD i 0) = false ∧
                0 < c.data.velocity.getD i 0 then
              acc + c.data.velocity.getD i 0 * dt
             else acc)
          else acc) a := by
      intro l a
      apply List.foldl_ext
      intro acc i hi
      simp only [heq, hcal, mul_one]
    rw [hfold]
    split
    · simp
    · rfl

theorem virtual_distance_identity_witness :
    calcW.data.air_speed = calcW.data.velocity ∧
    calcW.air_speed_calibration = 1 ∧
    (∃ x ∈ calcW.data.air_speed, x ≠ 0) ∧
    (calculate_virtual_distances calcW 0 1).2.2 = 0 :=
  ⟨rfl, rfl, ⟨10, by decide, by decide⟩,
    virtual_distance_identity calcW rfl rfl ⟨10, by decide, by decide⟩ 0 1⟩

/-- Claim C9: for inputs whose nine arrays share length N and arbitrary trim
indices, `calculate_virtual_elevation` returns five series of length N, and
the trim indices used for array access are clamped to [0, N-1] with
start ≤ end enforced. -/
theorem virtual_elevation_safety (c : VirtualElevationCalculator) (N : ℕ)
    (hts : c.data.timestamps.length = N) (hpw : c.data.power.length = N)
    (hv : c.data.velocity.length = N) (hlat : c.data.position_lat.length = N)
    (hlon : c.data.position_long.length = N)
    (halt : c.data.altitude.length = N) (hdist : c.data.distance.length = N)
    (hair : c.data.air_speed.length = N) (hwind : c.data.wind_speed.length = N)
    (cda crr : ℚ) (trim_start trim_end : ℕ) :
    (calculate_virtual_elevation c cda crr trim_start
      trim_end).virtual_elevation.length = N ∧
    (calculate_virtual_elevation c cda crr trim_start
      trim_end).virtual_slope.length = N ∧
    (calculate_virtual_elevation c cda crr trim_start
      trim_end).acceleration.length = N ∧
    (calculate_virtual_elevation c cda crr trim_start
      trim_end).effective_wind.length = N ∧
    (calculate_virtual_elevation c cda crr trim_start
      trim_end).apparent_velocity.length = N ∧
    (0 < N →
      safe_trim_start trim_start (safe_trim_end N trim_end) ≤
        safe_trim_end N trim_end ∧
      safe_trim_end N trim_end < N ∧
      min trim_start (N - 1) < N ∧ min trim_end (N - 1) < N) := by
  have hew : (calculate_effective_wind c).length = c.data.velocity.length :=
    length_effective_wind c (by rw [hlat, hv])
  have hslope : (calculate_virtual_slope c cda crr).1.length = N := by
    rw [length_virtual_slope, hv]
  have hew2 : (calculate_virtual_slope c cda crr).2.1 =
      calculate_effective_wind c := rfl
  have hav2 : (calculate_virtual_slope c cda crr).2.2 =
      get_apparent_velocity c (calculate_effective_wind c) := rfl
  unfold calculate_virtual_elevation
  dsimp only
  refine ⟨?_, hslope, ?_, ?_, ?_, ?_⟩
  · rw [length_cumsum, List.length_map, List.length_range, hslope]
  · rw [length_acceleration, hv]
  · rw [hew2, hew, hv]
  · rw [hav2,
      length_apparent_velocity c _ (by rw [hair, hv]) (by rw [hwind, hv]) hew,
      hv]
  · intro hN
    unfold safe_trim_start safe_trim_end
    omega

theorem virtual_elevation_safety_witness :
    calcW.data.timestamps.length = 2 ∧ calcW.data.power.length = 2 ∧
    calcW.data.velocity.length = 2 ∧ calcW.data.position_lat.length = 2 ∧
    calcW.data.position_long.length = 2 ∧ calcW.data.altitude.length = 2 ∧
    calcW.data.distance.length = 2 ∧ calcW.data.air_speed.length = 2 ∧
    calcW.data.wind_speed.length = 2 ∧
    (calculate_virtual_elevation calcW 0.3 0.005 0
      5).virtual_elevation.length = 2 :=
  ⟨rfl, rfl, rfl, rfl, rfl, rfl, rfl, rfl, rfl,
    (virtual_elevation_safety calcW 2 rfl rfl rfl rfl rfl rfl rfl rfl rfl
      0.3 0.005 0 5).1⟩

/-- Claim C10: the vectorization step of `parse_fit_file` produces thirteen
arrays whose common length equals the `record_count` statistic (the number
of extracted records), and every optional field absent from a record is
stored as 0 at that record's index. -/
theorem parse_fit_vectorization (fit_records : List FitRecord) :
    ((vectorize_records fit_records).timestamps.length =
        stats_record_count fit_records ∧
      (vectorize_records fit_records).power.length =
        stats_record_count fit_records ∧
      (vectorize_records fit_records).velocity.length =
        stats_record_count fit_records ∧
      (vectorize_records fit_records).position_lat.length =
        stats_record_count fit_records ∧
      (vectorize_records fit_records).position_long.length =
        stats_record_count fit_records ∧
      (vectorize_records fit_records).altitude.length =
        stats_record_count fit_records ∧
      (vectorize_records fit_records).distance.length =
        stats_record_count fit_records ∧
      (vectorize_records fit_records).air_speed.length =
        stats_record_count fit_records ∧
      (vectorize_records fit_records).wind_speed.length =
        stats_record_count fit_records ∧
      (vectorize_records fit_records).battery_soc.length =
        stats_record_count fit_records ∧
      (vectorize_records fit_records).heart_rate.length =
        stats_record_count fit_records ∧
      (vectorize_records fit_records).cadence.length =
        stats_record_count fit_records ∧
      (vectorize_records fit_records).temperature.length =
        stats_record_count fit_records) ∧
    ∀ i r, fit_records[i]? = some r →
      (r.power = none → (vectorize_records fit_records).power.getD i 0 = 0) ∧
      (r.speed = none →
        (vectorize_records fit_records).velocity.getD i 0 = 0) ∧
      (r.position_lat = none →
        (vectorize_records fit_records).position_lat.getD i 0 = 0) ∧
      (r.position_long = none →
        (vectorize_records fit_records).position_long.getD i 0 = 0) ∧
      (r.altitude = none →
        (vectorize_records fit_records).altitude.getD i 0 = 0) ∧
      (r.distance = none →
        (vectorize_records fit_records).distance.getD i 0 = 0) ∧
      (r.air_speed = none →
        (vectorize_records fit_records).air_speed.getD i 0 = 0) ∧
      (r.wind_speed = none →
        (vectorize_records fit_records).wind_speed.getD i 0 = 0) ∧
      (r.battery_soc = none →
        (vectorize_records fit_records).battery_soc.getD i 0 = 0) ∧
      (r.heart_rate = none →
        (vectorize_records fit_records).heart_rate.getD i 0 = 0) ∧
      (r.cadence = none →
        (vectorize_records fit_records).cadence.getD i 0 = 0) ∧
      (r.temperature = none →
        (vectorize_records fit_records).temperature.getD i 0 = 0) := by
  constructor
  · unfold vectorize_records stats_record_count
    dsimp only
    refine ⟨?_, ?_, ?_, ?_, ?_, ?_, ?_, ?_, ?_, ?_, ?_, ?_, ?_⟩ <;>
      apply List.length_map
  · intro i r h
    unfold vectorize_records
    dsimp only
    refine ⟨fun hn => ?_, fun hn => ?_, fun hn => ?_, fun hn => ?_,
      fun hn => ?_, fun hn => ?_, fun hn => ?_, fun hn => ?_, fun hn => ?_,
      fun hn => ?_, fun hn => ?_, fun hn => ?_⟩ <;>
      rw [getD_map_of_getElem _ _ _ _ _ h, hn] <;> rfl

theorem parse_fit_vectorization_witness :
    ([recW10][0]? = some recW10) ∧ recW10.power = none ∧
    (vectorize_records [recW10]).power.getD 0 0 = 0 :=
  ⟨rfl, rfl, ((parse_fit_vectorization [recW10]).2 0 recW10 rfl).1 rfl⟩
